import Mathlib

/-!
# Verification of the open-scouts scheduling / reconciliation orchestrator

Shallow embedding of the `scout-cron` Supabase edge function
(`supabase/functions/scout-cron/index.ts`), its Slack notification helper
(`supabase/functions/scout-cron/slack.ts`) and the test-Slack API route
(`app/api/send-test-slack/route.ts`).

Timestamps are modelled as integer milliseconds since the epoch (the code
compares `Date` values and ISO-8601 UTC strings, whose ordering coincides
with the ordering of their epoch-millisecond values).  Database tables are
modelled as lists of rows; a bulk `update ... where` is a `map` over the
rows, and an update keyed by primary key is an update of every row whose
`id` matches.
-/

namespace OpenScouts

/-- A scout's location filter (`scout.location`, a JSON object; `slack.ts`
reads `scout.location?.city`).  A present object is truthy in JS even when
`city` is absent. -/
structure Location where
  city : Option String
deriving DecidableEq

/-- Row of the `scouts` table.  Fields that the JS code checks for
truthiness (`title`, `goal`, `description`, `frequency`, `search_queries`,
`location`) are nullable and hence modelled as `Option`; in JS the empty
string is falsy, which `jsTruthyStr` below accounts for. -/
structure Scout where
  id : String
  user_id : String
  title : Option String
  goal : Option String
  description : Option String
  location : Option Location
  search_queries : Option (List String)
  frequency : Option String
  is_active : Bool
deriving DecidableEq

/-- Status of a `scout_executions` row. -/
inductive ExecStatus where
  | running
  | succeeded
  | failed
deriving DecidableEq

/-- Row of the `scout_executions` table. -/
structure Execution where
  id : String
  scout_id : String
  status : ExecStatus
  started_at : Int
  completed_at : Option Int
  error_message : Option String
deriving DecidableEq

/-- An auth user as returned by `supabase.auth.admin.getUserById`:
`last_sign_in_at` is nullable. -/
structure AuthUser where
  id : String
  last_sign_in_at : Option Int
deriving DecidableEq

/-- The two tables the orchestrator mutates. -/
structure DbState where
  scouts : List Scout
  scout_executions : List Execution
deriving DecidableEq

/-- JS truthiness of a nullable string: `null`/`undefined` and `""` are
falsy, every other string is truthy. -/
def jsTruthyStr : Option String → Bool
  | none => false
  | some s => s ≠ ""

/-- JS `a || b` on nullable strings (`route.ts` line 36). -/
def jsOrStr (a b : Option String) : Option String :=
  if jsTruthyStr a then a else b

/-! ## Stuck-execution reconciler (`index.ts` lines 27-54) -/

/-- Three minutes in milliseconds (`index.ts` line 29). -/
def stuckTimeoutMs : Int := 3 * 60 * 1000

/-- The fixed diagnostic message written by the reconciler
(`index.ts` line 46). -/
def timeoutErrorMessage : String :=
  "Execution timed out after 3 minutes (Supabase Edge Function limit)"

/-- Selection predicate of the cleanup query (`index.ts` lines 31-35):
status equals `running` and `started_at` is strictly before
`now - 3 minutes`. -/
def isStuckAt (now : Int) (e : Execution) : Bool :=
  e.status == ExecStatus.running && decide (e.started_at < now - stuckTimeoutMs)

/-- The update applied to a stuck execution (`index.ts` lines 41-48). -/
def markTimedOut (stamp : Int) (e : Execution) : Execution :=
  { e with
    status := ExecStatus.failed
    completed_at := some stamp
    error_message := some timeoutErrorMessage }

/-- One row-update keyed by `id`: `update(...).eq("id", eid)`. -/
def updOne (f : Execution → Execution) (eid : String) (e : Execution) : Execution :=
  if e.id == eid then f e else e

/-- `update(...).eq("id", eid)` applied to the whole table. -/
def updateExecutionById (f : Execution → Execution) (eid : String)
    (execs : List Execution) : List Execution :=
  execs.map (updOne f eid)

/-- The reconciler (`index.ts` lines 31-51): select the ids of all stuck
executions from a snapshot, then update each selected id to `failed` with a
completion stamp and the fixed timeout message. -/
def reconcileStuckExecutions (now stamp : Int) (execs : List Execution) : List Execution :=
  ((execs.filter (isStuckAt now)).map Execution.id).foldl
    (fun acc eid => updateExecutionById (markTimedOut stamp) eid acc) execs

/-- The reconciler acting on the whole store: it issues updates against the
`scout_executions` table only. -/
def reconcileStuckDb (now stamp : Int) (db : DbState) : DbState :=
  { db with scout_executions := reconcileStuckExecutions now stamp db.scout_executions }

/-! ## Dormancy sweeper (`index.ts` lines 56-112) -/

/-- Thirty days in milliseconds (`index.ts` line 58). -/
def thirtyDaysMs : Int := 30 * 24 * 60 * 60 * 1000

/-- `supabase.auth.admin.getUserById`: `none` models a lookup that fails
with an error object (including the "user not found" signal) or throws. -/
def lookupUser (users : List AuthUser) (uid : String) : Option AuthUser :=
  users.find? (fun u => u.id == uid)

/-- Per-account dormancy check of `index.ts` lines 74-90: an account is
put on `inactiveUserIds` exactly when its lookup succeeds, its
`last_sign_in_at` is non-null, and that timestamp is strictly before
`now - 30 days`.  A failed lookup (`userError`, thrown error) or a null
`last_sign_in_at` skips the account (`continue`). -/
def isDormantAt (users : List AuthUser) (now : Int) (uid : String) : Bool :=
  match lookupUser users uid with
  | none => false
  | some u =>
    match u.last_sign_in_at with
    | none => false
    | some t => decide (t < now - thirtyDaysMs)

/-- The distinct user ids owning at least one active scout
(`index.ts` lines 61-70). -/
def activeScoutUserIds (scouts : List Scout) : List String :=
  ((scouts.filter (fun s => s.is_active)).map Scout.user_id).dedup

/-- The `inactiveUserIds` array built by the per-account loop
(`index.ts` lines 71-90). -/
def dormantUserIds (scouts : List Scout) (users : List AuthUser) (now : Int) : List String :=
  (activeScoutUserIds scouts).filter (isDormantAt users now)

/-- The dormancy sweep (`index.ts` lines 56-112): collect distinct owners
of active scouts, keep those found dormant, and if any, run the single bulk
update `update({is_active:false}).in("user_id", inactive).eq("is_active", true)`. -/
def sweepDormantScouts (scouts : List Scout) (users : List AuthUser) (now : Int) : List Scout :=
  if (dormantUserIds scouts users now).isEmpty then scouts
  else scouts.map (fun s =>
    if s.user_id ∈ dormantUserIds scouts users now ∧ s.is_active then
      { s with is_active := false }
    else s)

/-! ## Due-date policy -/

/-- Modelled from the spec: `shouldRunScout` lives in
`supabase/functions/scout-cron/helpers.ts`, which is not part of the source
tree here.  Spec section 4.1 / design note: "string-coded frequency →
interval"; the supported codes are the hourly/daily/weekly examples the
spec names, mapped to their durations, with unrecognized codes rejected. -/
def frequencyIntervalMs : String → Option Int
  | "hourly" => some (60 * 60 * 1000)
  | "daily" => some (24 * 60 * 60 * 1000)
  | "weekly" => some (7 * 24 * 60 * 60 * 1000)
  | _ => none

/-- Modelled from the spec: the due-date policy `isDue(task,
mostRecentExecution?)` of `helpers.ts` (not in the source tree).  Per spec
section 4.1: a task with no prior execution is always due; otherwise
elapsed time since the last execution start is compared against the
interval implied by `frequency`; if the most recent execution is still
`running`, the task is due only if its staleness exceeds the
stuck-execution timeout.  The optional explicit time-of-day/day-of-week
refinement the spec leaves unspecified is omitted. -/
def isDue (s : Scout) (mostRecent : Option Execution) (now : Int) : Bool :=
  match mostRecent with
  | none => true
  | some e =>
    if e.status = ExecStatus.running then
      decide (stuckTimeoutMs < now - e.started_at)
    else
      match frequencyIntervalMs (s.frequency.getD "") with
      | none => false
      | some interval => decide (interval ≤ now - e.started_at)

/-- Modelled from the spec: the most recent execution of a task (the one
with the greatest `started_at` among the task's executions), fed to the
due-date policy. -/
def mostRecentExecutionFor (execs : List Execution) (sid : String) : Option Execution :=
  (execs.filter (fun e => e.scout_id == sid)).foldl
    (fun acc e =>
      match acc with
      | none => some e
      | some m => if m.started_at < e.started_at then some e else some m)
    none

/-! ## Selection (`index.ts` lines 114-167) -/

/-- Completeness check of `index.ts` lines 142-148, with JS truthiness:
`scout.title && scout.goal && scout.description && scout.location &&
scout.search_queries?.length > 0 && scout.frequency`. -/
def isCompleteScout (s : Scout) : Bool :=
  jsTruthyStr s.title && jsTruthyStr s.goal && jsTruthyStr s.description &&
    s.location.isSome && !(s.search_queries.getD []).isEmpty && jsTruthyStr s.frequency

/-- Error message of `index.ts` line 132. -/
def notFoundMsg (sid : String) : String :=
  s!"Scout {sid} not found in database"

/-- Error message of `index.ts` line 136. -/
def notActiveMsg (sid : String) : String :=
  s!"Scout {sid} is not active. Please activate it in the settings."

/-- Error message of `index.ts` line 151. -/
def incompleteMsg (sid : String) : String :=
  s!"Scout {sid} configuration is not complete"

/-- `select("*").eq("id", scoutId).single()`: `id` is the primary key, so
this is a first-match lookup; zero rows yield an error (`checkError`). -/
def findScout (scouts : List Scout) (sid : String) : Option Scout :=
  scouts.find? (fun s => s.id == sid)

/-- Selection of the run set (`index.ts` lines 114-167).  `Except.error`
models a thrown `Error` that the surrounding catch turns into the 500
response.  Manual branch (`scoutId` present): load by id, fail if absent,
inactive, or incomplete, otherwise the run set is exactly that scout — no
due-ness evaluation.  Cron branch: all active scouts filtered by the
due-date policy. -/
def selectScoutsToRun (scouts : List Scout) (execs : List Execution) (now : Int)
    (scoutId : Option String) : Except String (List Scout) :=
  match scoutId with
  | some sid =>
    match findScout scouts sid with
    | none => Except.error (notFoundMsg sid)
    | some sc =>
      if !sc.is_active then Except.error (notActiveMsg sid)
      else if !isCompleteScout sc then Except.error (incompleteMsg sid)
      else Except.ok [sc]
  | none =>
    Except.ok ((scouts.filter (fun s => s.is_active)).filter
      (fun s => isDue s (mostRecentExecutionFor execs s.id) now))

/-! ## Dispatch and report (`index.ts` lines 169-196) -/

/-- Modelled from the spec: the outcome of one task's execution, produced
by `executeScoutAgent` (`agent.ts`, not in the source tree).  Per spec
section 4.4, "Outcome per task: success with result payload, or failure
with an error detail; in both cases an Execution Record is persisted by the
collaborator". -/
inductive TaskOutcome where
  | success (payload : String)
  | failure (err : String)
deriving DecidableEq

/-- Whether an outcome is a success. -/
def TaskOutcome.isSuccess : TaskOutcome → Bool
  | .success _ => true
  | .failure _ => false

/-- `await Promise.all` over one fallible async operation per element:
either every invocation fulfils and the fulfilment values are collected in
order, or the whole combination rejects with an error. -/
def promiseAll {α β : Type} (f : α → Except String β) : List α → Except String (List β)
  | [] => Except.ok []
  | a :: l =>
    match f a, promiseAll f l with
    | Except.ok b, Except.ok bs => Except.ok (b :: bs)
    | Except.error m, _ => Except.error m
    | _, Except.error m => Except.error m

/-- Total extraction from an `Except` with a default. -/
def exceptGetD {ε β : Type} (d : β) : Except ε β → β
  | Except.ok b => b
  | Except.error _ => d

/-- Whether an executor invocation fulfilled with a success outcome. -/
def execOkSuccess (r : Except String TaskOutcome) : Bool :=
  match r with
  | Except.ok o => o.isSuccess
  | Except.error _ => false

/-- The 200 response body of `index.ts` lines 176-186: overall success
flag, count of scouts executed, and each scout's id and title. -/
structure CycleReport where
  success : Bool
  scoutsExecuted : Nat
  scouts : List (String × Option String)
deriving DecidableEq

/-- Builds the 200 response body from the run set. -/
def buildReport (scouts : List Scout) : CycleReport :=
  { success := true
    scoutsExecuted := scouts.length
    scouts := scouts.map (fun s => (s.id, s.title)) }

/-- Dispatch stage (`index.ts` lines 171-186): run every selected scout
through the executor under a `Promise.all` fan-in, pairing each scout id
with its outcome, then build the 200 report.  A rejected invocation rejects
the `Promise.all` and the catch at lines 187-196 turns it into the 500
response, modelled as `Except.error`. -/
def dispatchAndReport (exec : Scout → Except String TaskOutcome) (scouts : List Scout) :
    Except String (CycleReport × List (String × TaskOutcome)) :=
  match promiseAll (fun s => (exec s).map (fun o => (s.id, o))) scouts with
  | Except.error m => Except.error m
  | Except.ok outcomes => Except.ok (buildReport scouts, outcomes)

/-! ## Slack notification helper (`slack.ts`) -/

/-- Is `c` in the character class `[A-Z0-9]`? -/
def isUpperAlnum (c : Char) : Bool :=
  ('A' ≤ c && c ≤ 'Z') || ('0' ≤ c && c ≤ '9')

/-- Is `c` in the character class `[A-Za-z0-9]`? -/
def isAlnumChar (c : Char) : Bool :=
  ('A' ≤ c && c ≤ 'Z') || ('a' ≤ c && c ≤ 'z') || ('0' ≤ c && c ≤ '9')

/-- `SLACK_WEBHOOK_PATTERN.test(url)` (`slack.ts` lines 7-8, `route.ts`
lines 9-10): `^https:\/\/hooks\.slack\.com\/services\/T[A-Z0-9]+\/B[A-Z0-9]+\/[A-Za-z0-9]+$`.
The quantified classes exclude `/`, so greedy matching is deterministic:
each run extends to the next `/` and the final run must reach the end. -/
def slackWebhookPatternTest (s : String) : Bool :=
  let pre := ("https://hooks.slack.com/services/T").data
  let l := s.data
  if pre <+: l then
    let r0 := l.drop pre.length
    let p1 := r0.span isUpperAlnum
    match p1.2 with
    | '/' :: 'B' :: r1 =>
      if p1.1.isEmpty then false
      else
        let p2 := r1.span isUpperAlnum
        match p2.2 with
        | '/' :: r2 =>
          if p2.1.isEmpty then false
          else
            let p3 := r2.span isAlnumChar
            !p3.1.isEmpty && p3.2.isEmpty
        | _ => false
    | _ => false
  else false

/-- Result of the `user_preferences` read in `sendSlackNotification`
(`slack.ts` lines 47-51): the awaited call can throw, return an error
object (`prefError`), or return a row whose `slack_webhook_url` is
nullable. -/
inductive StoreReadResult where
  | threw (msg : String)
  | errObj (msg : String)
  | row (url : Option String)
deriving DecidableEq

/-- Result of `await fetch(webhookUrl, ...)` plus the `response.ok` check:
the fetch can throw, resolve non-OK, or resolve OK. -/
inductive FetchOutcome where
  | ok
  | httpError (body : String)
  | threw (msg : String)
deriving DecidableEq

/-- The observable outcome of one `sendSlackNotification` call. -/
inductive SlackNotifyOutcome where
  | skippedNoWebhook
  | skippedInvalidUrl
  | sendFailedHttp
  | sent
  | caughtError (msg : String)
deriving DecidableEq

/-- The `try` body of `sendSlackNotification` (`slack.ts` lines 45-86):
missing/falsy webhook URL or a store error object returns early; an URL
failing the pattern returns early; a non-OK response returns early after
logging; a thrown error propagates (`Except.error`). -/
def sendSlackNotificationTry (pref : StoreReadResult) (fetchRes : FetchOutcome) :
    Except String SlackNotifyOutcome :=
  match pref with
  | .threw m => Except.error m
  | .errObj _ => Except.ok .skippedNoWebhook
  | .row none => Except.ok .skippedNoWebhook
  | .row (some url) =>
    if url = "" then Except.ok .skippedNoWebhook
    else if !slackWebhookPatternTest url then Except.ok .skippedInvalidUrl
    else
      match fetchRes with
      | .threw m => Except.error m
      | .httpError _ => Except.ok .sendFailedHttp
      | .ok => Except.ok .sent

/-- `sendSlackNotification` (`slack.ts` lines 40-92): the whole body is
wrapped in `try { ... } catch (error) { console.error(...) }`; the catch
logs and does not rethrow, so a thrown error becomes a normal return. -/
def sendSlackNotification (pref : StoreReadResult) (fetchRes : FetchOutcome) :
    Except String SlackNotifyOutcome :=
  match sendSlackNotificationTry pref fetchRes with
  | Except.ok o => Except.ok o
  | Except.error m => Except.ok (.caughtError m)

/-! ## Message formatting (`slack.ts` lines 108-119) -/

/-- One pass of the literal global replace `/## /g → "*"`: when the next
three characters are `## ` they are consumed and replaced by `*`, otherwise
the scan advances one character. -/
def replaceHeadersGo : Nat → List Char → List Char
  | 0, l => l
  | _, [] => []
  | fuel + 1, c :: rest =>
    if c = '#' ∧ rest.take 2 = ['#', ' '] then '*' :: replaceHeadersGo fuel (rest.drop 2)
    else c :: replaceHeadersGo fuel rest

/-- `response.replace(/## /g, "*")`. -/
def replaceHeaders (l : List Char) : List Char :=
  replaceHeadersGo l.length l

/-- Finds the lazy closing `**` for the bold regex: the shortest content
(no line terminator, `.` does not match them) followed by `**`; returns the
content and the remainder after the closing `**`. -/
def findBoldClose : Nat → List Char → Option (List Char × List Char)
  | 0, _ => none
  | _, [] => none
  | _, '*' :: '*' :: rest => some ([], rest)
  | fuel + 1, c :: rest =>
    if c = '\n' ∨ c = '\r' then none
    else
      match findBoldClose fuel rest with
      | none => none
      | some (content, rest2) => some (c :: content, rest2)

/-- One scan of the global replace `/\*\*(.*?)\*\*/g → "*$1*"`:  at each
`**`, the lazily-shortest newline-free content up to a closing `**` is
rewrapped in single `*`; with no closing `**` the engine advances one
character. -/
def replaceBoldGo : Nat → List Char → List Char
  | 0, l => l
  | _, [] => []
  | fuel + 1, c :: rest =>
    if c = '*' ∧ rest.head? = some '*' then
      match findBoldClose rest.tail.length rest.tail with
      | some (content, rest2) => '*' :: (content ++ '*' :: replaceBoldGo fuel rest2)
      | none => c :: replaceBoldGo fuel rest
    else c :: replaceBoldGo fuel rest

/-- `.replace(/\*\*(.*?)\*\*/g, "*$1*")`. -/
def replaceBold (l : List Char) : List Char :=
  replaceBoldGo l.length l

/-- Splits at the first occurrence of `stop`: returns the characters
before it and the remainder after it, or `none` when `stop` is absent. -/
def takeUntilChar (stop : Char) : List Char → Option (List Char × List Char)
  | [] => none
  | c :: rest =>
    if c = stop then some ([], rest)
    else
      match takeUntilChar stop rest with
      | none => none
      | some (pre, post) => some (c :: pre, post)

/-- Tries the link regex `\[([^\]]+)\]\(([^)]+)\)` at the head of the
input: `[`, a nonempty run without `]`, `]`, `(`, a nonempty run without
`)`, `)`.  Returns label, url and the remainder. -/
def tryLinkMatch (l : List Char) : Option (List Char × List Char × List Char) :=
  if l.head? = some '[' then
    match takeUntilChar ']' l.tail with
    | none => none
    | some ([], _) => none
    | some (label, r1) =>
      match r1 with
      | '(' :: r2 =>
        match takeUntilChar ')' r2 with
        | none => none
        | some ([], _) => none
        | some (url, r3) => some (label, url, r3)
      | _ => none
  else none

/-- One scan of the global replace
`/\[([^\]]+)\]\(([^)]+)\)/g → "<$2|$1>"`. -/
def replaceLinksGo : Nat → List Char → List Char
  | 0, l => l
  | _, [] => []
  | fuel + 1, c :: rest =>
    match tryLinkMatch (c :: rest) with
    | some (label, url, r3) => '<' :: (url ++ '|' :: (label ++ '>' :: replaceLinksGo fuel r3))
    | none => c :: replaceLinksGo fuel rest

/-- `.replace(/\[([^\]]+)\]\(([^)]+)\)/g, "<$2|$1>")`. -/
def replaceLinks (l : List Char) : List Char :=
  replaceLinksGo l.length l

/-- The `cleanResponse` pipeline of `formatSlackMessage`
(`slack.ts` lines 110-113): headers, then bold, then links. -/
def cleanResponseChars (l : List Char) : List Char :=
  replaceLinks (replaceBold (replaceHeaders l))

/-- The suffix appended on truncation (`slack.ts` line 118). -/
def truncMarker : List Char := ("\n\n...(truncated)").data

/-- The result-section text of `formatSlackMessage` (`slack.ts` lines
108-119): the cleaned response, truncated to `substring(0, 2000 - 15)`
plus the marker when its length exceeds `MAX_TEXT_LENGTH = 2000`. -/
def formatSlackMessageResultText (s : String) : String :=
  let clean := cleanResponseChars s.data
  if 2000 < clean.length then String.mk (clean.take 1985 ++ truncMarker)
  else String.mk clean

/-! ## Test-Slack API route (`app/api/send-test-slack/route.ts`) -/

/-- The `user_preferences` columns the route reads and writes. -/
structure UserPrefs where
  slack_webhook_url : Option String
  last_test_slack_at : Option Int
deriving DecidableEq

/-- Cooldown between test notifications, in ms (`route.ts` lines 5-6). -/
def testSlackCooldownMs : Int := 60 * 1000

/-- What one `POST /api/send-test-slack` request did: the HTTP status of
the response, the `cooldownRemaining` field of a 429 body, whether the
webhook was fetched, and the user's preferences row afterwards. -/
structure TestSlackOutcome where
  status : Nat
  cooldownRemaining : Option Int
  webhookCalled : Bool
  prefsAfter : Option UserPrefs
deriving DecidableEq

/-- `Math.ceil(remaining / 1000)` for nonnegative integer `remaining`. -/
def ceilSeconds (remaining : Int) : Int :=
  (remaining + 999) / 1000

/-- The send-and-stamp tail of the route (`route.ts` lines 105-139): fetch
the webhook; a thrown fetch lands in the catch (500); a non-OK response is
a 400; on OK the preferences row is updated (or inserted) with
`last_test_slack_at = now` and the response is a 200. -/
def testSlackSend (url : String) (prefs : Option UserPrefs) (now : Int)
    (fetchRes : FetchOutcome) : TestSlackOutcome :=
  match fetchRes with
  | .threw _ => { status := 500, cooldownRemaining := none, webhookCalled := true, prefsAfter := prefs }
  | .httpError _ => { status := 400, cooldownRemaining := none, webhookCalled := true, prefsAfter := prefs }
  | .ok =>
    match prefs with
    | some p =>
      { status := 200, cooldownRemaining := none, webhookCalled := true,
        prefsAfter := some { p with last_test_slack_at := some now } }
    | none =>
      { status := 200, cooldownRemaining := none, webhookCalled := true,
        prefsAfter := some { slack_webhook_url := some url, last_test_slack_at := some now } }

/-- `POST /api/send-test-slack` (`route.ts` lines 12-146).  Inputs: the
authenticated user (none = 401), the `webhookUrl` of the request body, the
user's preferences row (`maybeSingle`), the current time, and the webhook
fetch outcome.  Order of checks as in the source: authentication, webhook
URL resolution (`body || preferences`, JS falsiness), pattern validation,
then the 60-second rate limit, then the send. -/
def sendTestSlackPOST (user : Option String) (bodyUrl : Option String)
    (prefs : Option UserPrefs) (now : Int) (fetchRes : FetchOutcome) : TestSlackOutcome :=
  match user with
  | none => { status := 401, cooldownRemaining := none, webhookCalled := false, prefsAfter := prefs }
  | some _ =>
    let webhookUrl := jsOrStr bodyUrl (prefs.bind UserPrefs.slack_webhook_url)
    if !jsTruthyStr webhookUrl then
      { status := 400, cooldownRemaining := none, webhookCalled := false, prefsAfter := prefs }
    else
      let url := webhookUrl.getD ""
      if !slackWebhookPatternTest url then
        { status := 400, cooldownRemaining := none, webhookCalled := false, prefsAfter := prefs }
      else
        match prefs.bind UserPrefs.last_test_slack_at with
        | some t =>
          if now - t < testSlackCooldownMs then
            { status := 429,
              cooldownRemaining := some (max 1 (ceilSeconds (testSlackCooldownMs - (now - t)))),
              webhookCalled := false, prefsAfter := prefs }
          else testSlackSend url prefs now fetchRes
        | none => testSlackSend url prefs now fetchRes

/-! ## Demo rows used by concrete witnesses -/

/-- A stuck execution: `running` since epoch 0. -/
def c2Exec1 : Execution :=
  { id := "e1", scout_id := "s1", status := ExecStatus.running,
    started_at := 0, completed_at := none, error_message := none }

/-- A fresh execution: `running`, started at the probe time. -/
def c2Exec2 : Execution :=
  { id := "e2", scout_id := "s2", status := ExecStatus.running,
    started_at := 1000000, completed_at := none, error_message := none }

/-- An active, fully configured scout owned by the dormant demo account. -/
def c4ScoutOld : Scout :=
  { id := "sc-old", user_id := "u-old", title := some "Tokyo events",
    goal := some "find events", description := some "weekly events scout",
    location := some { city := some "Tokyo" }, search_queries := some ["events tokyo"],
    frequency := some "daily", is_active := true }

/-- An active scout owned by the recently signed-in demo account. -/
def c4ScoutNew : Scout :=
  { id := "sc-new", user_id := "u-new", title := some "Osaka news",
    goal := some "find news", description := some "daily news scout",
    location := some { city := some "Osaka" }, search_queries := some ["news osaka"],
    frequency := some "daily", is_active := true }

/-- Demo account whose last sign-in (epoch 0) is older than 30 days before
the probe time. -/
def c4UserOld : AuthUser := { id := "u-old", last_sign_in_at := some 0 }

/-- Demo account that signed in within the 30-day window. -/
def c4UserNew : AuthUser := { id := "u-new", last_sign_in_at := some 5000000000 }

/-- An active scout whose owner has no auth record at all, so the
last-sign-in lookup fails with a "not found" signal. -/
def c5Scout : Scout :=
  { id := "sc-gone", user_id := "u-gone", title := some "Kyoto food",
    goal := some "find food", description := some "food scout",
    location := some { city := some "Kyoto" }, search_queries := some ["food kyoto"],
    frequency := some "daily", is_active := true }

/-- An active, fully configured scout for the manual-trigger witness. -/
def c3Scout : Scout :=
  { id := "sc-3", user_id := "u-3", title := some "Nagoya jobs",
    goal := some "find jobs", description := some "jobs scout",
    location := some { city := some "Nagoya" }, search_queries := some ["jobs nagoya"],
    frequency := some "daily", is_active := true }

/-- An inactive scout for the manual-trigger witness. -/
def c3ScoutInactive : Scout :=
  { id := "sc-i", user_id := "u-3", title := some "Sendai housing",
    goal := some "find housing", description := some "housing scout",
    location := some { city := some "Sendai" }, search_queries := some ["housing sendai"],
    frequency := some "daily", is_active := false }

/-- An active but incomplete scout (no title) for the manual-trigger
witness. -/
def c3ScoutIncomplete : Scout :=
  { id := "sc-c", user_id := "u-3", title := none,
    goal := some "find things", description := some "things scout",
    location := some { city := some "Kobe" }, search_queries := some ["things"],
    frequency := some "daily", is_active := true }

/-- A recent running execution of `c3Scout`, under which the due-date
policy would say "not due" — the manual trigger must ignore it. -/
def c3RecentRun : Execution :=
  { id := "e-3", scout_id := "sc-3", status := ExecStatus.running,
    started_at := 999000, completed_at := none, error_message := none }

/-- Demo scouts for the dispatch witness. -/
def c1ScoutA : Scout :=
  { id := "sc-a", user_id := "u-1", title := some "A", goal := some "g",
    description := some "d", location := some { city := none },
    search_queries := some ["qa"], frequency := some "daily", is_active := true }

/-- Demo scout whose execution fails in the dispatch witness. -/
def c1ScoutB : Scout :=
  { id := "sc-b", user_id := "u-1", title := some "B", goal := some "g",
    description := some "d", location := some { city := none },
    search_queries := some ["qb"], frequency := some "daily", is_active := true }

/-- Demo scout for the dispatch witness. -/
def c1ScoutC : Scout :=
  { id := "sc-c2", user_id := "u-2", title := some "C", goal := some "g",
    description := some "d", location := some { city := none },
    search_queries := some ["qc"], frequency := some "daily", is_active := true }

/-- Demo executor: fails on `sc-b`, succeeds elsewhere, never rejects. -/
def c1ExecDemo (s : Scout) : Except String TaskOutcome :=
  if s.id = "sc-b" then Except.ok (TaskOutcome.failure "agent crashed")
  else Except.ok (TaskOutcome.success "found results")

/-! ## Helper lemmas -/

/-- `Promise.all` fulfils with the in-order list of fulfilment values when
every invocation fulfils. -/
theorem promiseAll_ok_of_forall {α β : Type} (f : α → Except String β) (d : β) :
    ∀ (l : List α), (∀ a ∈ l, ∃ b, f a = Except.ok b) →
      promiseAll f l = Except.ok (l.map (fun a => exceptGetD d (f a))) := by
  intro l
  induction l with
  | nil => intro _; rfl
  | cons a l ih =>
    intro h
    obtain ⟨b, hb⟩ := h a (List.mem_cons_self a l)
    have hl := ih (fun x hx => h x (List.mem_cons_of_mem a hx))
    simp only [promiseAll, hb, hl, List.map_cons, exceptGetD]

/-- A scout found dormant and active at sweep time is sent to the
deactivated copy of itself by the bulk update; the sweep preserves
positions. -/
theorem sweepDormantScouts_get? (scouts : List Scout) (users : List AuthUser)
    (now : Int) (i : Nat) (s : Scout) (hget : scouts.get? i = some s) :
    (sweepDormantScouts scouts users now).get? i
      = some (if s.user_id ∈ dormantUserIds scouts users now ∧ s.is_active then
          { s with is_active := false }
        else s) := by
  rw [sweepDormantScouts]
  by_cases hemp : (dormantUserIds scouts users now).isEmpty
  · rw [if_pos hemp, hget]
    rw [List.isEmpty_iff_eq_nil] at hemp
    rw [hemp]
    simp
  · rw [if_neg hemp, List.get?_map, hget]
    rfl

/-- Folding primary-key updates over a duplicate-free id list equals a
single map that updates exactly the rows whose id is listed, provided the
update preserves ids. -/
theorem foldl_updateById_eq_map (f : Execution → Execution)
    (hf : ∀ e, (f e).id = e.id) :
    ∀ (ids : List String), ids.Nodup → ∀ (l : List Execution),
      ids.foldl (fun acc eid => updateExecutionById f eid acc) l
        = l.map (fun e => if e.id ∈ ids then f e else e) := by
  intro ids
  induction ids with
  | nil =>
    intro _ l
    simp [List.foldl]
  | cons k ks ih =>
    intro hnd l
    rw [List.nodup_cons] at hnd
    obtain ⟨hk, hks⟩ := hnd
    rw [List.foldl_cons]
    show ks.foldl (fun acc eid => updateExecutionById f eid acc)
        (updateExecutionById f k l) = _
    rw [ih hks, updateExecutionById, List.map_map]
    have hfun : (fun e => if e.id ∈ ks then f e else e) ∘ updOne f k
        = fun e => if e.id ∈ k :: ks then f e else e := by
      funext e
      by_cases he : e.id = k
      · have h1 : updOne f k e = f e := by
          simp [updOne, he]
        have h2 : (f e).id ∉ ks := by
          rw [hf e, he]; exact hk
        simp [Function.comp, h1, h2, List.mem_cons, he]
      · have h1 : updOne f k e = e := by
          simp [updOne, he]
        simp [Function.comp, h1, List.mem_cons, he]
    rw [hfun]

/-- The reconciler in closed form: under duplicate-free primary keys it is
the map that times out exactly the stuck rows. -/
theorem reconcileStuck_eq_map (now stamp : Int) (execs : List Execution)
    (h : (execs.map Execution.id).Nodup) :
    reconcileStuckExecutions now stamp execs
      = execs.map (fun e => if isStuckAt now e then markTimedOut stamp e else e) := by
  have hf : ∀ e, (markTimedOut stamp e).id = e.id := fun e => rfl
  have hsub : ((execs.filter (isStuckAt now)).map Execution.id).Sublist (execs.map Execution.id) :=
    (List.filter_sublist execs).map Execution.id
  have hnd : ((execs.filter (isStuckAt now)).map Execution.id).Nodup := h.sublist hsub
  rw [reconcileStuckExecutions, foldl_updateById_eq_map (markTimedOut stamp) hf _ hnd execs]
  apply List.map_congr_left
  intro e he
  have hmem : e.id ∈ (execs.filter (isStuckAt now)).map Execution.id ↔ isStuckAt now e = true := by
    constructor
    · intro hin
      rw [List.mem_map] at hin
      obtain ⟨e', he', hid⟩ := hin
      rw [List.mem_filter] at he'
      have : e' = e := List.inj_on_of_nodup_map h he'.1 he hid
      rw [← this]; exact he'.2
    · intro hst
      rw [List.mem_map]
      exact ⟨e, List.mem_filter.mpr ⟨he, hst⟩, rfl⟩
  by_cases hst : isStuckAt now e = true
  · rw [if_pos (hmem.mpr hst), if_pos hst]
  · rw [if_neg (fun hin => hst (hmem.mp hin)),
      if_neg (fun hh => hst hh)]

/-! ## Claim theorems -/

/-- C2: one reconciliation pass transitions every execution that is
`running` with `started_at` older than `now` minus the 3-minute timeout to
`failed` with a completion timestamp and the fixed timeout diagnostic
message, and leaves every other execution — in particular every running
execution within the timeout — unchanged.  Stated under duplicate-free
primary keys (`id` is the table's primary key). -/
theorem reconcile_stuck_transitions (execs : List Execution) (now stamp : Int)
    (h : (execs.map Execution.id).Nodup) :
    (reconcileStuckExecutions now stamp execs).length = execs.length ∧
    ∀ i, (reconcileStuckExecutions now stamp execs).get? i
      = (execs.get? i).map (fun e =>
          if isStuckAt now e then
            { e with
              status := ExecStatus.failed
              completed_at := some stamp
              error_message := some timeoutErrorMessage }
          else e) := by
  rw [reconcileStuck_eq_map now stamp execs h]
  constructor
  · exact List.length_map _ _
  · intro i
    rw [List.get?_map]
    rfl

/-- Concrete witness for C2: two running executions, one stuck since epoch
0 and one started at the probe time; the pass touches exactly the stuck
one. -/
theorem reconcile_stuck_transitions_witness :
    (([c2Exec1, c2Exec2].map Execution.id).Nodup) ∧
    (reconcileStuckExecutions 1000000 1000001 [c2Exec1, c2Exec2]).length = 2 ∧
    (reconcileStuckExecutions 1000000 1000001 [c2Exec1, c2Exec2]).get? 0
      = some { c2Exec1 with
          status := ExecStatus.failed
          completed_at := some 1000001
          error_message := some timeoutErrorMessage } ∧
    (reconcileStuckExecutions 1000000 1000001 [c2Exec1, c2Exec2]).get? 1 = some c2Exec2 := by
  have h := reconcile_stuck_transitions [c2Exec1, c2Exec2] 1000000 1000001 (by decide)
  refine ⟨by decide, h.1, ?_, ?_⟩
  · rw [h.2 0]; decide
  · rw [h.2 1]; decide

/-- C4: a sweep pass deactivates, in the single bulk update scoped to the
dormant account set intersected with currently-active tasks, every
still-active task owned by an account whose last sign-in is older than
`now` minus the 30-day threshold; tasks owned by accounts that signed in
within the threshold are left unchanged. -/
theorem sweep_deactivates_dormant (scouts : List Scout) (users : List AuthUser) (now : Int) :
    (sweepDormantScouts scouts users now).length = scouts.length ∧
    (∀ i s u t, scouts.get? i = some s → s.is_active = true →
      lookupUser users s.user_id = some u → u.last_sign_in_at = some t →
      t < now - thirtyDaysMs →
      (sweepDormantScouts scouts users now).get? i = some { s with is_active := false }) ∧
    (∀ i s u t, scouts.get? i = some s →
      lookupUser users s.user_id = some u → u.last_sign_in_at = some t →
      now - thirtyDaysMs ≤ t →
      (sweepDormantScouts scouts users now).get? i = some s) := by
  refine ⟨?_, ?_, ?_⟩
  · rw [sweepDormantScouts]
    by_cases hemp : (dormantUserIds scouts users now).isEmpty
    · rw [if_pos hemp]
    · rw [if_neg hemp, List.length_map]
  · intro i s u t hget hact hlook hlast hold
    rw [sweepDormantScouts_get? scouts users now i s hget]
    have hdorm : isDormantAt users now s.user_id = true := by
      simp only [isDormantAt, hlook, hlast]
      exact decide_eq_true hold
    have hsmem : s ∈ scouts := List.get?_mem hget
    have huid : s.user_id ∈ activeScoutUserIds scouts := by
      rw [activeScoutUserIds, List.mem_dedup, List.mem_map]
      exact ⟨s, List.mem_filter.mpr ⟨hsmem, hact⟩, rfl⟩
    have hmem : s.user_id ∈ dormantUserIds scouts users now :=
      List.mem_filter.mpr ⟨huid, hdorm⟩
    rw [if_pos ⟨hmem, hact⟩]
  · intro i s u t hget hlook hlast hnew
    rw [sweepDormantScouts_get? scouts users now i s hget]
    have hdorm : isDormantAt users now s.user_id = false := by
      simp only [isDormantAt, hlook, hlast]
      exact decide_eq_false (not_lt.mpr hnew)
    have hnotmem : s.user_id ∉ dormantUserIds scouts users now := by
      intro hm
      rw [dormantUserIds, List.mem_filter] at hm
      rw [hm.2] at hdorm
      exact Bool.noConfusion hdorm
    rw [if_neg (fun hc => hnotmem hc.1)]

/-- Concrete witness for C4: at 60 days, the dormant account's active
scout is deactivated and the fresh account's scout is untouched. -/
theorem sweep_deactivates_dormant_witness :
    ([c4ScoutOld, c4ScoutNew].get? 0 = some c4ScoutOld) ∧
    c4ScoutOld.is_active = true ∧
    lookupUser [c4UserOld, c4UserNew] c4ScoutOld.user_id = some c4UserOld ∧
    c4UserOld.last_sign_in_at = some 0 ∧
    ((0 : Int) < 5184000000 - thirtyDaysMs) ∧
    (sweepDormantScouts [c4ScoutOld, c4ScoutNew] [c4UserOld, c4UserNew] 5184000000).get? 0
      = some { c4ScoutOld with is_active := false } ∧
    (sweepDormantScouts [c4ScoutOld, c4ScoutNew] [c4UserOld, c4UserNew] 5184000000).get? 1
      = some c4ScoutNew := by
  refine ⟨by decide, by decide, by decide, by decide, by decide, ?_, ?_⟩
  · exact (sweep_deactivates_dormant [c4ScoutOld, c4ScoutNew] [c4UserOld, c4UserNew]
      5184000000).2.1 0 c4ScoutOld c4UserOld 0 (by decide) (by decide) (by decide)
      (by decide) (by decide)
  · exact (sweep_deactivates_dormant [c4ScoutOld, c4ScoutNew] [c4UserOld, c4UserNew]
      5184000000).2.2 1 c4ScoutNew c4UserNew 5000000000 (by decide) (by decide)
      (by decide) (by decide)

/-- C5 counterexample: at the probe time the owner of `c5Scout` has no
auth record, so the last-sign-in lookup fails with a "not found" signal;
the claim says the account is marked dormant and its active task
deactivated, but the sweep leaves the task active and unchanged. -/
theorem sweep_not_found_counterexample :
    lookupUser [] c5Scout.user_id = none ∧
    c5Scout.is_active = true ∧
    sweepDormantScouts [c5Scout] [] 5184000000 = [c5Scout] := by decide

/-- C5 as amended: during the dormancy sweep an account whose last-sign-in
lookup fails — including with a "not found" signal — is skipped for this
cycle: it is not marked dormant and its tasks are left unchanged. -/
theorem sweep_skips_failed_lookup (scouts : List Scout) (users : List AuthUser)
    (now : Int) (i : Nat) (s : Scout) (hget : scouts.get? i = some s)
    (hlook : lookupUser users s.user_id = none) :
    (sweepDormantScouts scouts users now).get? i = some s := by
  rw [sweepDormantScouts_get? scouts users now i s hget]
  have hdorm : isDormantAt users now s.user_id = false := by
    simp only [isDormantAt, hlook]
  have hnotmem : s.user_id ∉ dormantUserIds scouts users now := by
    intro hm
    rw [dormantUserIds, List.mem_filter] at hm
    rw [hm.2] at hdorm
    exact Bool.noConfusion hdorm
  rw [if_neg (fun hc => hnotmem hc.1)]

/-- Concrete witness for the amended C5. -/
theorem sweep_skips_failed_lookup_witness :
    lookupUser [] c5Scout.user_id = none ∧
    (sweepDormantScouts [c5Scout] [] 5184000000).get? 0 = some c5Scout :=
  ⟨by decide, sweep_skips_failed_lookup [c5Scout] [] 5184000000 0 c5Scout
    (by decide) (by decide)⟩

/-- C6: the reconciliation pass mutates only execution records — the
`scouts` table, and with it every task's `active` flag and all other task
fields, is exactly the same after the reconciliation step as before it
(its update statement targets the `scout_executions` table only). -/
theorem reconcile_frame_scouts (db : DbState) (now stamp : Int) :
    (reconcileStuckDb now stamp db).scouts = db.scouts := rfl

/-- C7: the due-date policy is a pure function that returns `true` for
every task with no prior execution, regardless of the task's frequency or
schedule fields. -/
theorem isDue_no_prior_execution (s : Scout) (now : Int) :
    isDue s none now = true := rfl

/-- C3: on a manual trigger for a specific task id, an absent task ends
the invocation in the top-level "not found" failure; a task whose active
flag is false, in the top-level inactivity failure; a task with incomplete
configuration, in the top-level incompleteness failure; otherwise the run
set is exactly that one task, for every execution history and probe time —
due-ness is never evaluated. -/
theorem manual_trigger_selection (scouts : List Scout) (execs : List Execution)
    (now : Int) (sid : String) :
    (findScout scouts sid = none →
      selectScoutsToRun scouts execs now (some sid) = Except.error (notFoundMsg sid)) ∧
    (∀ sc, findScout scouts sid = some sc → sc.is_active = false →
      selectScoutsToRun scouts execs now (some sid) = Except.error (notActiveMsg sid)) ∧
    (∀ sc, findScout scouts sid = some sc → sc.is_active = true →
      isCompleteScout sc = false →
      selectScoutsToRun scouts execs now (some sid) = Except.error (incompleteMsg sid)) ∧
    (∀ sc, findScout scouts sid = some sc → sc.is_active = true →
      isCompleteScout sc = true →
      ∀ (execs2 : List Execution) (now2 : Int),
        selectScoutsToRun scouts execs2 now2 (some sid) = Except.ok [sc]) := by
  refine ⟨?_, ?_, ?_, ?_⟩
  · intro h
    simp [selectScoutsToRun, h]
  · intro sc h hact
    simp [selectScoutsToRun, h, hact]
  · intro sc h hact hcomp
    simp [selectScoutsToRun, h, hact, hcomp]
  · intro sc h hact hcomp execs2 now2
    simp [selectScoutsToRun, h, hact, hcomp]

/-- Concrete witness for C3: an unknown id fails "not found"; an inactive
scout fails for inactivity; an incomplete scout fails for incompleteness;
and the active, complete `c3Scout` is selected alone even though a recent
running execution would make it not due. -/
theorem manual_trigger_selection_witness :
    selectScoutsToRun [c3Scout, c3ScoutInactive, c3ScoutIncomplete] [] 0 (some "sc-x")
      = Except.error (notFoundMsg "sc-x") ∧
    selectScoutsToRun [c3Scout, c3ScoutInactive, c3ScoutIncomplete] [] 0 (some "sc-i")
      = Except.error (notActiveMsg "sc-i") ∧
    selectScoutsToRun [c3Scout, c3ScoutInactive, c3ScoutIncomplete] [] 0 (some "sc-c")
      = Except.error (incompleteMsg "sc-c") ∧
    isDue c3Scout (mostRecentExecutionFor [c3RecentRun] c3Scout.id) 1000000 = false ∧
    selectScoutsToRun [c3Scout, c3ScoutInactive, c3ScoutIncomplete] [c3RecentRun] 1000000
      (some "sc-3") = Except.ok [c3Scout] := by
  have h1 := (manual_trigger_selection [c3Scout, c3ScoutInactive, c3ScoutIncomplete]
    [] 0 "sc-x").1 (by decide)
  have h2 := (manual_trigger_selection [c3Scout, c3ScoutInactive, c3ScoutIncomplete]
    [] 0 "sc-i").2.1 c3ScoutInactive (by decide) (by decide)
  have h3 := (manual_trigger_selection [c3Scout, c3ScoutInactive, c3ScoutIncomplete]
    [] 0 "sc-c").2.2.1 c3ScoutIncomplete (by decide) (by decide) (by decide)
  have h4 := (manual_trigger_selection [c3Scout, c3ScoutInactive, c3ScoutIncomplete]
    [] 0 "sc-3").2.2.2 c3Scout (by decide) (by decide) (by decide) [c3RecentRun] 1000000
  exact ⟨h1, h2, h3, by decide, h4⟩

/-- C1: when the dispatcher runs N selected tasks and the executor yields
a failure outcome for task k while every sibling yields a success outcome
(per the spec's executor contract a task failure produces a failure
outcome/record and does not reject), the cycle does not abort: the
response is the success report over all N tasks, the collected per-task
outcome list has all N entries, entry k is exactly the failure, every
other entry is a success, and each task's entry is its own executor's
outcome, unaffected by k's failure. -/
theorem dispatch_isolated_failure (scouts : List Scout)
    (exec : Scout → Except String TaskOutcome) (k : Nat) (hk : k < scouts.length)
    (err : String)
    (hfail : exec (scouts.get ⟨k, hk⟩) = Except.ok (TaskOutcome.failure err))
    (hok : ∀ j (hj : j < scouts.length), j ≠ k →
      execOkSuccess (exec (scouts.get ⟨j, hj⟩)) = true) :
    ∃ outcomes,
      dispatchAndReport exec scouts = Except.ok (buildReport scouts, outcomes) ∧
      outcomes.length = scouts.length ∧
      (buildReport scouts).success = true ∧
      (buildReport scouts).scoutsExecuted = scouts.length ∧
      outcomes.get? k = some ((scouts.get ⟨k, hk⟩).id, TaskOutcome.failure err) ∧
      (∀ j e, j ≠ k → outcomes.get? j = some e → e.2.isSuccess = true) ∧
      (∀ j s o, scouts.get? j = some s → exec s = Except.ok o →
        outcomes.get? j = some (s.id, o)) := by
  have hall : ∀ a ∈ scouts, ∃ b,
      (fun s => (exec s).map (fun o => (s.id, o))) a = Except.ok b := by
    intro a ha
    obtain ⟨⟨j, hj⟩, rfl⟩ := List.mem_iff_get.mp ha
    by_cases hjk : j = k
    · refine ⟨((scouts.get ⟨j, hj⟩).id, TaskOutcome.failure err), ?_⟩
      have heq : (⟨j, hj⟩ : Fin scouts.length) = ⟨k, hk⟩ := Fin.ext hjk
      simp only [heq, hfail]
      rfl
    · have hs := hok j hj hjk
      cases hx : exec (scouts.get ⟨j, hj⟩) with
      | ok o => exact ⟨((scouts.get ⟨j, hj⟩).id, o), by simp only [hx]; rfl⟩
      | error m =>
        rw [hx] at hs
        simp [execOkSuccess] at hs
  have hmap := promiseAll_ok_of_forall
    (fun s => (exec s).map (fun o => (s.id, o))) ("", TaskOutcome.failure "") scouts hall
  refine ⟨scouts.map (fun a =>
    exceptGetD ("", TaskOutcome.failure "") ((exec a).map (fun o => (a.id, o)))), ?_, ?_, rfl, rfl, ?_, ?_, ?_⟩
  · rw [dispatchAndReport, hmap]
  · rw [List.length_map]
  · rw [List.get?_map, List.get?_eq_get hk, Option.map_some', hfail]
    rfl
  · intro j e hjk hget
    rw [List.get?_map] at hget
    cases hj' : scouts.get? j with
    | none => rw [hj'] at hget; exact absurd hget (by simp)
    | some s =>
      rw [hj', Option.map_some'] at hget
      obtain ⟨hj, hgs⟩ := List.get?_eq_some.mp hj'
      have hs := hok j hj hjk
      cases hx : exec s with
      | ok o =>
        have he : e = (s.id, o) := by
          injection hget with hget'
          rw [← hget', hx]
          rfl
        rw [he]
        rw [hgs] at hs
        rw [hx] at hs
        simp only [execOkSuccess] at hs
        exact hs
      | error m =>
        rw [hgs] at hs
        rw [hx] at hs
        simp [execOkSuccess] at hs
  · intro j s o hget hx
    rw [List.get?_map, hget, Option.map_some', hx]
    rfl

/-- C8: sending a per-scout Slack notification never propagates a failure
to the caller: for every store-read result (error object, thrown error,
missing or invalid webhook URL) and every webhook fetch outcome (OK,
non-OK, thrown), `sendSlackNotification` returns normally — it is never
`Except.error`, so a notification failure cannot affect the orchestrator's
outcome. -/
theorem slack_notification_never_throws (pref : StoreReadResult) (fetchRes : FetchOutcome) :
    ∃ o, sendSlackNotification pref fetchRes = Except.ok o := by
  cases h : sendSlackNotificationTry pref fetchRes with
  | ok o => exact ⟨o, by simp only [sendSlackNotification, h]⟩
  | error m => exact ⟨.caughtError m, by simp only [sendSlackNotification, h]⟩

/-- Concrete witness for C1: three scouts, the middle one's executor
fails, the report covers all three and the siblings' outcomes are
successes. -/
theorem dispatch_isolated_failure_witness :
    ∃ outcomes,
      dispatchAndReport c1ExecDemo [c1ScoutA, c1ScoutB, c1ScoutC]
        = Except.ok (buildReport [c1ScoutA, c1ScoutB, c1ScoutC], outcomes) ∧
      outcomes.length = 3 ∧
      outcomes.get? 1 = some ("sc-b", TaskOutcome.failure "agent crashed") ∧
      (∀ j e, j ≠ 1 → outcomes.get? j = some e → e.2.isSuccess = true) := by
  obtain ⟨outcomes, h1, h2, _, _, h5, h6, _⟩ :=
    dispatch_isolated_failure [c1ScoutA, c1ScoutB, c1ScoutC] c1ExecDemo 1 (by decide)
      "agent crashed" (by rfl) (by decide)
  exact ⟨outcomes, h1, h2, h5, h6⟩

/-- The length of a packed string is the length of its character list. -/
theorem strLength_mk (l : List Char) : (String.mk l).length = l.length := rfl

/-- The header replace is the identity on text without `#`. -/
theorem replaceHeadersGo_eq_self (fuel : Nat) :
    ∀ l, (∀ c ∈ l, c ≠ '#') → replaceHeadersGo fuel l = l := by
  induction fuel with
  | zero => intro l _; cases l <;> rfl
  | succ fuel ih =>
    intro l h
    cases l with
    | nil => rfl
    | cons c rest =>
      have hc : c ≠ '#' := h c (List.mem_cons_self c rest)
      simp only [replaceHeadersGo]
      rw [if_neg (fun hcontra => hc hcontra.1),
        ih rest (fun x hx => h x (List.mem_cons_of_mem c hx))]

/-- The bold replace is the identity on text without `*`. -/
theorem replaceBoldGo_eq_self (fuel : Nat) :
    ∀ l, (∀ c ∈ l, c ≠ '*') → replaceBoldGo fuel l = l := by
  induction fuel with
  | zero => intro l _; cases l <;> rfl
  | succ fuel ih =>
    intro l h
    cases l with
    | nil => rfl
    | cons c rest =>
      have hc : c ≠ '*' := h c (List.mem_cons_self c rest)
      simp only [replaceBoldGo]
      rw [if_neg (fun hcontra => hc hcontra.1),
        ih rest (fun x hx => h x (List.mem_cons_of_mem c hx))]

/-- The link replace is the identity on text without `[`. -/
theorem replaceLinksGo_eq_self (fuel : Nat) :
    ∀ l, (∀ c ∈ l, c ≠ '[') → replaceLinksGo fuel l = l := by
  induction fuel with
  | zero => intro l _; cases l <;> rfl
  | succ fuel ih =>
    intro l h
    cases l with
    | nil => rfl
    | cons c rest =>
      have hc : c ≠ '[' := h c (List.mem_cons_self c rest)
      have hnone : tryLinkMatch (c :: rest) = none := by
        simp only [tryLinkMatch, List.head?_cons]
        rw [if_neg (by simp [hc])]
      simp only [replaceLinksGo, hnone]
      rw [ih rest (fun x hx => h x (List.mem_cons_of_mem c hx))]

/-- The whole cleanup pipeline is the identity on text free of `#`, `*`
and `[`. -/
theorem cleanResponseChars_eq_self (l : List Char)
    (h : ∀ c ∈ l, c ≠ '#' ∧ c ≠ '*' ∧ c ≠ '[') : cleanResponseChars l = l := by
  rw [cleanResponseChars, replaceHeaders,
    replaceHeadersGo_eq_self l.length l (fun c hc => (h c hc).1), replaceBold,
    replaceBoldGo_eq_self l.length l (fun c hc => (h c hc).2.1), replaceLinks,
    replaceLinksGo_eq_self l.length l (fun c hc => (h c hc).2.2)]

/-- A run of `a` characters passes the cleanup pipeline unchanged. -/
theorem cleanResponseChars_replicate_a (n : Nat) :
    cleanResponseChars (List.replicate n 'a') = List.replicate n 'a' :=
  cleanResponseChars_eq_self _ (by
    intro c hc
    rw [List.eq_of_mem_replicate hc]
    exact ⟨by decide, by decide, by decide⟩)

/-- C9 counterexample: on a response of 2001 plain characters, the
result-section text produced by `formatSlackMessage` is strictly longer
than 2000 characters (the truncation keeps 1985 characters and appends the
16-character marker, totalling 2001). -/
theorem result_text_exceeds_2000 :
    2000 < (formatSlackMessageResultText (String.mk (List.replicate 2001 'a'))).length := by
  have hc : cleanResponseChars (String.mk (List.replicate 2001 'a')).data
      = List.replicate 2001 'a' := cleanResponseChars_replicate_a 2001
  simp only [formatSlackMessageResultText, hc]
  rw [if_pos (by rw [List.length_replicate]; omega), strLength_mk, List.length_append,
    List.take_replicate, List.length_replicate]
  decide

/-- C9 as amended: for every scout response text the result-section text
produced by `formatSlackMessage` is at most 2001 characters long; when the
cleaned response exceeds 2000 characters it is truncated to its first 1985
characters and suffixed with the 16-character `"\n\n...(truncated)"`
marker, for exactly 2001 characters. -/
theorem result_text_bounded (s : String) :
    (formatSlackMessageResultText s).length ≤ 2001 ∧
    (2000 < (cleanResponseChars s.data).length →
      (formatSlackMessageResultText s).data
        = (cleanResponseChars s.data).take 1985 ++ truncMarker ∧
      (formatSlackMessageResultText s).length = 2001) := by
  have hm : truncMarker.length = 16 := by decide
  constructor
  · simp only [formatSlackMessageResultText]
    by_cases hlen : 2000 < (cleanResponseChars s.data).length
    · rw [if_pos hlen, strLength_mk, List.length_append, List.length_take, hm]
      have hmin : min 1985 (cleanResponseChars s.data).length ≤ 1985 := min_le_left _ _
      omega
    · rw [if_neg hlen, strLength_mk]
      omega
  · intro hlen
    simp only [formatSlackMessageResultText]
    rw [if_pos hlen]
    refine ⟨rfl, ?_⟩
    rw [strLength_mk, List.length_append, List.length_take, hm]
    have hmin : min 1985 (cleanResponseChars s.data).length = 1985 := by omega
    omega

/-- Concrete witness for the amended C9: the 2001-character plain response
is over the threshold and its section text comes out at exactly 2001
characters. -/
theorem result_text_bounded_witness :
    2000 < (cleanResponseChars (String.mk (List.replicate 2001 'a')).data).length ∧
    (formatSlackMessageResultText (String.mk (List.replicate 2001 'a'))).length = 2001 := by
  have hlen : 2000 < (cleanResponseChars (String.mk (List.replicate 2001 'a')).data).length := by
    show 2000 < (cleanResponseChars (List.replicate 2001 'a')).length
    rw [cleanResponseChars_replicate_a, List.length_replicate]
    omega
  exact ⟨hlen, ((result_text_bounded (String.mk (List.replicate 2001 'a'))).2 hlen).2⟩

/-- Outside the successful-fetch path, the route leaves the preferences
row untouched. -/
theorem sendTestSlackPOST_prefs_unchanged (u b : Option String) (p : Option UserPrefs)
    (n : Int) (f : FetchOutcome) (hf : f ≠ FetchOutcome.ok) :
    (sendTestSlackPOST u b p n f).prefsAfter = p := by
  cases u with
  | none => rfl
  | some uid =>
    cases f with
    | ok => exact absurd rfl hf
    | httpError body =>
      simp only [sendTestSlackPOST, testSlackSend]
      repeat (first | rfl | split)
    | threw m =>
      simp only [sendTestSlackPOST, testSlackSend]
      repeat (first | rfl | split)

/-- C10 as amended: for every authenticated request whose webhook URL —
resolved as `providedWebhookUrl || preferences?.slack_webhook_url`
(`route.ts` line 36), so whether it comes from the request body or from
the stored preferences — passes format validation, and which arrives less
than 60 seconds after the stored `last_test_slack_at`, the response has
status 429 with a `cooldownRemaining` of at least 1, no message is sent to
the webhook, and `last_test_slack_at` is left unchanged; moreover, across
all requests, the stored row changes only when the webhook call
succeeds. -/
theorem test_slack_cooldown (uid url : String) (bodyUrl : Option String)
    (p : UserPrefs) (t now : Int) (f : FetchOutcome)
    (hres : jsOrStr bodyUrl p.slack_webhook_url = some url)
    (hne : url ≠ "")
    (hpat : slackWebhookPatternTest url = true)
    (ht : p.last_test_slack_at = some t)
    (hcool : now - t < testSlackCooldownMs) :
    (sendTestSlackPOST (some uid) bodyUrl (some p) now f).status = 429 ∧
    (∃ c, (sendTestSlackPOST (some uid) bodyUrl (some p) now f).cooldownRemaining
        = some c ∧ 1 ≤ c) ∧
    (sendTestSlackPOST (some uid) bodyUrl (some p) now f).webhookCalled = false ∧
    (sendTestSlackPOST (some uid) bodyUrl (some p) now f).prefsAfter = some p ∧
    (∀ (u2 b2 : Option String) (p2 : Option UserPrefs) (n2 : Int) (f2 : FetchOutcome),
      (sendTestSlackPOST u2 b2 p2 n2 f2).prefsAfter ≠ p2 → f2 = FetchOutcome.ok) := by
  have htruthy : jsTruthyStr (some url) = true := by
    simp [jsTruthyStr, hne]
  refine ⟨?_, ?_, ?_, ?_, ?_⟩
  · simp [sendTestSlackPOST, hres, htruthy, hpat, ht, hcool]
  · refine ⟨max 1 (ceilSeconds (testSlackCooldownMs - (now - t))), ?_, le_max_left 1 _⟩
    simp [sendTestSlackPOST, hres, htruthy, hpat, ht, hcool]
  · simp [sendTestSlackPOST, hres, htruthy, hpat, ht, hcool]
  · simp [sendTestSlackPOST, hres, htruthy, hpat, ht, hcool]
  · intro u2 b2 p2 n2 f2 hne2
    by_contra hf2
    exact hne2 (sendTestSlackPOST_prefs_unchanged u2 b2 p2 n2 f2 hf2)

/-- C10 counterexample: an authenticated request made 1 second after the
stored `last_test_slack_at` — well within the 60-second cooldown — but
with no webhook URL configured or provided is answered with status 400,
not 429: the webhook-URL checks run before the rate-limit check. -/
theorem test_slack_cooldown_counterexample :
    ((1000 : Int) - 0 < testSlackCooldownMs) ∧
    (sendTestSlackPOST (some "user-1") none
        (some { slack_webhook_url := none, last_test_slack_at := some 0 }) 1000
        FetchOutcome.ok).status = 400 ∧
    (sendTestSlackPOST (some "user-1") none
        (some { slack_webhook_url := none, last_test_slack_at := some 0 }) 1000
        FetchOutcome.ok).status ≠ 429 := by decide

/-- Concrete witness for the amended C10, exercising both resolution
paths of `route.ts` line 36: a request with no body URL whose valid
webhook URL comes from the stored preferences, and a request providing
the valid URL in its body — both with a stored timestamp 1 second old,
both answered 429 with no webhook call. -/
theorem test_slack_cooldown_witness :
    slackWebhookPatternTest "https://hooks.slack.com/services/T123/B456/xyz" = true ∧
    jsOrStr none (some "https://hooks.slack.com/services/T123/B456/xyz")
      = some "https://hooks.slack.com/services/T123/B456/xyz" ∧
    (sendTestSlackPOST (some "user-1") none
        (some { slack_webhook_url := some "https://hooks.slack.com/services/T123/B456/xyz",
                last_test_slack_at := some 0 }) 1000
        FetchOutcome.ok).status = 429 ∧
    (sendTestSlackPOST (some "user-1") none
        (some { slack_webhook_url := some "https://hooks.slack.com/services/T123/B456/xyz",
                last_test_slack_at := some 0 }) 1000
        FetchOutcome.ok).webhookCalled = false ∧
    (sendTestSlackPOST (some "user-1")
        (some "https://hooks.slack.com/services/T123/B456/xyz")
        (some { slack_webhook_url := none, last_test_slack_at := some 0 }) 1000
        FetchOutcome.ok).status = 429 ∧
    (sendTestSlackPOST (some "user-1")
        (some "https://hooks.slack.com/services/T123/B456/xyz")
        (some { slack_webhook_url := none, last_test_slack_at := some 0 }) 1000
        FetchOutcome.ok).webhookCalled = false := by
  have hpref := test_slack_cooldown "user-1"
    "https://hooks.slack.com/services/T123/B456/xyz" none
    { slack_webhook_url := some "https://hooks.slack.com/services/T123/B456/xyz",
      last_test_slack_at := some 0 } 0 1000 FetchOutcome.ok
    (by decide) (by decide) (by decide) rfl (by decide)
  have hbody := test_slack_cooldown "user-1"
    "https://hooks.slack.com/services/T123/B456/xyz"
    (some "https://hooks.slack.com/services/T123/B456/xyz")
    { slack_webhook_url := none, last_test_slack_at := some 0 } 0 1000 FetchOutcome.ok
    (by decide) (by decide) (by decide) rfl (by decide)
  exact ⟨by decide, by decide, hpref.1, hpref.2.2.1, hbody.1, hbody.2.2.1⟩

end OpenScouts
